import Mathlib

/-!
Shallow embedding of the Autoware default mission planner
(`planning/autoware_mission_planner/src/lanelet2_plugins/default_planner.cpp`).

Lanelets (and the combined lanelets produced by `combine_lanelets_with_shoulder`)
are represented by abstract ids (`Nat`); exact geometric quantities produced by
the lanelet/boost geometry libraries (distances, lengths, polygon containment,
centerline projections) are rational-valued oracles collected in an `Env`
record, one field per external query the planner source performs.  The control
flow of the planner itself is transcribed literally from the source.

Machine doubles are modelled by `ℚ`; angles are measured in half-turns
(units of pi radians), which makes the angle normalization arithmetic exact.
-/

namespace DefaultPlannerModel

/-- Pose: a 3D position together with a heading.  The heading (the yaw
extracted from the quaternion by tf2::getYaw) is measured in half-turns,
i.e. units of pi radians. -/
structure Pose where
  x : ℚ
  y : ℚ
  z : ℚ
  yawPi : ℚ
deriving DecidableEq

/-- One route segment of the output message
(autoware_planning_msgs::msg::LaneletSegment): the ids traversable at this
step plus the preferred id. -/
structure LaneletSegment where
  primitives : List Nat
  preferred_primitive : Nat
deriving DecidableEq

/-- The output route message (start pose, goal pose, segments); the header is
assigned outside the planner. -/
structure LaneletRoute where
  start_pose : Pose
  goal_pose : Pose
  segments : List LaneletSegment
deriving DecidableEq

/-- Planner parameters (`DefaultPlannerParameters`) together with the two
vehicle-dimension quantities the validator reads
(`vehicle_info_.max_longitudinal_offset_m` and the `search_margin`
argument of the containment search). -/
structure Params where
  goal_angle_threshold_deg : ℚ
  enable_correct_goal_pose : Bool
  consider_no_drivable_lanes : Bool
  check_footprint_inside_lanes : Bool
  max_longitudinal_offset_m : ℚ
  search_margin : ℚ
deriving DecidableEq

/-- Environment: the read-only lanelet map, route handler and geometry
queries the planner consumes.  Each field stands for one external call:

* `nextLanelets n`        — `route_handler_.getNextLanelets` on lanelet `n`;
* `laneletLength n`       — `lanelet::utils::getLaneletLength2d` of lanelet `n`;
* `combine ls`            — `combine_lanelets_with_shoulder` of the list `ls`
                            (the id of the combined lanelet);
* `closestShoulder g`     — the shoulder lanelet found by `getClosestLanelet`
                            over `getShoulderLaneletsAtPose g`, if any;
* `closestRoadAtPose g`   — the road lanelet found by `getClosestLanelet`
                            over `getRoadLaneletsAtPose g`, if any;
* `nearestRoadFallback g` — the result of the `nearestUntil` branch-and-bound
                            nearest road lanelet search, if any;
* `laneletAngleAt n g`    — `lanelet::utils::getLaneletAngle` (half-turns);
* `laneDistance n g`      — 2D distance from the goal point to the boundary
                            polygon of lanelet `n` (used by `is_in_lane`);
* `parkingSpaceDists g`   — per parking space, the distance of the goal point
                            to its polygon, or `none` when
                            `lineStringWithWidthToPolygon` fails;
* `parkingLotDists g`     — per parking lot, the distance of the goal point
                            to its polygon;
* `footprintWithin g n`   — `boost::geometry::within` of the vehicle footprint
                            sited at pose `g` against the polygon of (combined)
                            lanelet `n`;
* `planPath s g b`        — `route_handler_.planPathLaneletsBetweenCheckpoints`
                            (`none` when it reports failure);
* `correctedGoal g`       — `get_closest_centerline_pose` of `g`;
* `projectZ n p`          — `project_goal_to_map`: the elevation obtained by
                            projecting the 3D point `p` onto the fine
                            centerline of lanelet `n`;
* `fuel`                  — a bound on the recursion depth of the containment
                            search (the C++ recursion carries no such bound;
                            every terminating execution is reproduced by some
                            sufficiently large fuel). -/
structure Env where
  nextLanelets : Nat → List Nat
  laneletLength : Nat → ℚ
  combine : List Nat → Nat
  closestShoulder : Pose → Option Nat
  closestRoadAtPose : Pose → Option Nat
  nearestRoadFallback : Pose → Option Nat
  laneletAngleAt : Nat → Pose → ℚ
  laneDistance : Nat → Pose → ℚ
  parkingSpaceDists : Pose → List (Option ℚ)
  parkingLotDists : Pose → List ℚ
  footprintWithin : Pose → Nat → Bool
  planPath : Pose → Pose → Bool → Option (List Nat)
  correctedGoal : Pose → Pose
  projectZ : Nat → ℚ × ℚ × ℚ → ℚ
  fuel : Nat

/-- Distance threshold of the point-in-region predicates:
`std::numeric_limits<double>::epsilon()`, i.e. 2 to the power -52. -/
def th_distance : ℚ := 1 / 2 ^ 52

/-- Predicate is_in_lane: the 2D distance from the point to the lanelet's
boundary polygon is below machine epsilon. -/
def is_in_lane (env : Env) (ll : Nat) (p : Pose) : Bool :=
  decide (env.laneDistance ll p < th_distance)

/-- Predicate is_in_parking_space: some parking space whose width-annotated
linestring converts to a polygon has distance to the point below machine
epsilon (spaces failing the conversion are skipped). -/
def is_in_parking_space (dists : List (Option ℚ)) : Bool :=
  dists.any fun d =>
    match d with
    | none => false
    | some d => decide (d < th_distance)

/-- Predicate is_in_parking_lot: some parking lot polygon has distance to the
point below machine epsilon. -/
def is_in_parking_lot (dists : List ℚ) : Bool :=
  dists.any fun d => decide (d < th_distance)

/-- Modelled from the spec: `autoware_universe_utils::normalizeRadian` (its
source lives outside this repository's planner file) wraps an angle to the
interval from -pi to pi.  In half-turn units this returns the representative
of `q` modulo 2 lying in the half-open interval from -1 to 1. -/
def normalizeHalfTurns (q : ℚ) : ℚ := q - 2 * ⌊(q + 1) / 2⌋

/-- Modelled from the spec: `autoware_universe_utils::deg2rad` converts the
configured degree threshold to radians; in half-turn units this is division
by 180. -/
def deg2halfTurns (deg : ℚ) : ℚ := deg / 180

/-- Shared angular acceptance test of the validator: the absolute value of the
normalized signed difference between the lane direction and the goal heading
is strictly below the configured threshold. -/
def angle_diff_ok (laneYaw goalYaw thresholdDeg : ℚ) : Bool :=
  decide (|normalizeHalfTurns (laneYaw - goalYaw)| < deg2halfTurns thresholdDeg)

/-- Loop body of `check_goal_footprint_inside_lanes` over the lanelets
following the current one, parameterised by `recur`, the recursive call of
the search at one smaller depth.  `next_lane_length` is the in/out
accumulated length reference of the C++ code, threaded explicitly. -/
def check_following_lanelets (env : Env) (cfg : Params) (fpWithin : Nat → Bool)
    (recur : Nat → Nat → ℚ → Bool × ℚ) (combined_prev_lanelet : Nat) :
    List Nat → ℚ → Bool × ℚ
  | [], next_lane_length => (false, next_lane_length)
  | next_lane :: rest, next_lane_length =>
    let len1 := next_lane_length + env.laneletLength next_lane
    let combined_lanelets := env.combine [combined_prev_lanelet, next_lane]
    if cfg.max_longitudinal_offset_m + cfg.search_margin < len1 then
      let len2 := len1 - env.laneletLength next_lane
      if fpWithin combined_lanelets then (true, len2)
      else check_following_lanelets env cfg fpWithin recur combined_prev_lanelet rest len2
    else
      match recur next_lane combined_lanelets len1 with
      | (true, lenr) => (true, lenr)
      | (false, lenr) =>
        check_following_lanelets env cfg fpWithin recur combined_prev_lanelet rest
          (lenr - env.laneletLength next_lane)

/-- `DefaultPlanner::check_goal_footprint_inside_lanes`: depth-first search
for a chain of following lanelets whose combined polygon contains the goal
footprint.  The `fuel` argument bounds the recursion depth (absent in C++,
where the recursion is unbounded); fuel exhaustion returns failure. -/
def check_goal_footprint_inside_lanes (env : Env) (cfg : Params) (fpWithin : Nat → Bool) :
    Nat → Nat → Nat → ℚ → Bool × ℚ
  | 0, _, _, next_lane_length => (false, next_lane_length)
  | fuel + 1, current_lanelet, combined_prev_lanelet, next_lane_length =>
    if fpWithin combined_prev_lanelet then (true, next_lane_length)
    else
      check_following_lanelets env cfg fpWithin
        (check_goal_footprint_inside_lanes env cfg fpWithin fuel)
        combined_prev_lanelet (env.nextLanelets current_lanelet) next_lane_length

/-- Claim-literal variant of the loop body, transcribing the spec sentence
word for word: recurse one level deeper exactly when the accumulated length
plus the search margin is less than the maximum longitudinal offset;
otherwise restore the length and test containment of the footprint in the
combined polygon.  Kept solely to compare against the source transliteration. -/
def check_following_claim (env : Env) (cfg : Params) (fpWithin : Nat → Bool)
    (recur : Nat → Nat → ℚ → Bool × ℚ) (combined_prev_lanelet : Nat) :
    List Nat → ℚ → Bool × ℚ
  | [], next_lane_length => (false, next_lane_length)
  | next_lane :: rest, next_lane_length =>
    let len1 := next_lane_length + env.laneletLength next_lane
    let combined_lanelets := env.combine [combined_prev_lanelet, next_lane]
    if len1 + cfg.search_margin < cfg.max_longitudinal_offset_m then
      match recur next_lane combined_lanelets len1 with
      | (true, lenr) => (true, lenr)
      | (false, lenr) =>
        check_following_claim env cfg fpWithin recur combined_prev_lanelet rest
          (lenr - env.laneletLength next_lane)
    else
      let len2 := len1 - env.laneletLength next_lane
      if fpWithin combined_lanelets then (true, len2)
      else check_following_claim env cfg fpWithin recur combined_prev_lanelet rest len2

/-- Top level of the claim-literal containment search variant. -/
def check_goal_footprint_claim (env : Env) (cfg : Params) (fpWithin : Nat → Bool) :
    Nat → Nat → Nat → ℚ → Bool × ℚ
  | 0, _, _, next_lane_length => (false, next_lane_length)
  | fuel + 1, current_lanelet, combined_prev_lanelet, next_lane_length =>
    if fpWithin combined_prev_lanelet then (true, next_lane_length)
    else
      check_following_claim env cfg fpWithin
        (check_goal_footprint_claim env cfg fpWithin fuel)
        combined_prev_lanelet (env.nextLanelets current_lanelet) next_lane_length

/-- Amended-spec variant of the loop body: recurse one level deeper exactly
when the accumulated length is at most the maximum longitudinal offset plus
the search margin; otherwise restore the length and test containment of the
footprint in the combined polygon. -/
def check_following_amended (env : Env) (cfg : Params) (fpWithin : Nat → Bool)
    (recur : Nat → Nat → ℚ → Bool × ℚ) (combined_prev_lanelet : Nat) :
    List Nat → ℚ → Bool × ℚ
  | [], next_lane_length => (false, next_lane_length)
  | next_lane :: rest, next_lane_length =>
    let len1 := next_lane_length + env.laneletLength next_lane
    let combined_lanelets := env.combine [combined_prev_lanelet, next_lane]
    if len1 ≤ cfg.max_longitudinal_offset_m + cfg.search_margin then
      match recur next_lane combined_lanelets len1 with
      | (true, lenr) => (true, lenr)
      | (false, lenr) =>
        check_following_amended env cfg fpWithin recur combined_prev_lanelet rest
          (lenr - env.laneletLength next_lane)
    else
      let len2 := len1 - env.laneletLength next_lane
      if fpWithin combined_lanelets then (true, len2)
      else check_following_amended env cfg fpWithin recur combined_prev_lanelet rest len2

/-- Top level of the amended-spec containment search variant. -/
def check_goal_footprint_amended (env : Env) (cfg : Params) (fpWithin : Nat → Bool) :
    Nat → Nat → Nat → ℚ → Bool × ℚ
  | 0, _, _, next_lane_length => (false, next_lane_length)
  | fuel + 1, current_lanelet, combined_prev_lanelet, next_lane_length =>
    if fpWithin combined_prev_lanelet then (true, next_lane_length)
    else
      check_following_amended env cfg fpWithin
        (check_goal_footprint_amended env cfg fpWithin fuel)
        combined_prev_lanelet (env.nextLanelets current_lanelet) next_lane_length

/-- Shoulder-lane rule of `is_goal_valid` (first block): the closest shoulder
lanelet at the goal pose exists and the angular difference is within the
threshold. -/
def shoulder_rule (env : Env) (cfg : Params) (goal : Pose) : Bool :=
  match env.closestShoulder goal with
  | some ll => angle_diff_ok (env.laneletAngleAt ll goal) goal.yawPi cfg.goal_angle_threshold_deg
  | none => false

/-- Location of the closest road lanelet in `is_goal_valid`: the closest of
the road lanelets at the pose, or failing that the nearest road lanelet found
by the branch-and-bound search over the whole lanelet layer. -/
def locate_closest_road (env : Env) (goal : Pose) : Option Nat :=
  match env.closestRoadAtPose goal with
  | some ll => some ll
  | none => env.nearestRoadFallback goal

/-- Footprint rejection gate of `is_goal_valid`: footprint checking is
enabled, the containment search fails starting from the combined path
lanelets with accumulated length 0, and the goal point is not inside any
parking lot. -/
def footprint_rejects (env : Env) (cfg : Params) (goal : Pose) (closest_lanelet : Nat)
    (path_lanelets : List Nat) : Bool :=
  cfg.check_footprint_inside_lanes
    && !(check_goal_footprint_inside_lanes env cfg (env.footprintWithin goal) env.fuel
          closest_lanelet (env.combine path_lanelets) 0).1
    && !(is_in_parking_lot (env.parkingLotDists goal))

/-- On-lane rule of `is_goal_valid`: the goal point lies on the closest
lanelet and the angular difference is within the threshold. -/
def on_lane_rule (env : Env) (cfg : Params) (goal : Pose) (closest_lanelet : Nat) : Bool :=
  is_in_lane env closest_lanelet goal
    && angle_diff_ok (env.laneletAngleAt closest_lanelet goal) goal.yawPi
        cfg.goal_angle_threshold_deg

/-- `DefaultPlanner::is_goal_valid`, transcribed as the ordered short-circuit
chain of the source: shoulder rule, closest-road location (invalid when none),
footprint rejection gate, on-lane rule, parking space, parking lot. -/
def is_goal_valid (env : Env) (cfg : Params) (goal : Pose) (path_lanelets : List Nat) : Bool :=
  if shoulder_rule env cfg goal then true
  else
    match locate_closest_road env goal with
    | none => false
    | some closest_lanelet =>
      if footprint_rejects env cfg goal closest_lanelet path_lanelets then false
      else if on_lane_rule env cfg goal closest_lanelet then true
      else if is_in_parking_space (env.parkingSpaceDists goal) then true
      else if is_in_parking_lot (env.parkingLotDists goal) then true
      else false

/-- One `push_back` of the route-lanelet accumulation loop of `plan`:
the incoming lane is skipped when the accumulator is non-empty and the lane's
id equals the id of the last accumulated lanelet. -/
def push_route_lanelet (acc : List Nat) (lane : Nat) : List Nat :=
  match acc.getLast? with
  | some last => if lane = last then acc else acc ++ [lane]
  | none => [lane]

/-- Accumulation of one checkpoint pair's path lanelets into the route. -/
def append_route_lanelets (acc : List Nat) (lanes : List Nat) : List Nat :=
  lanes.foldl push_route_lanelet acc

/-- Consecutive checkpoint pairs (points[i-1], points[i]) visited by the
planning loop. -/
def checkpoint_pairs (points : List Pose) : List (Pose × Pose) :=
  points.zip points.tail

/-- The checkpoint loop of `plan`: for each consecutive pair ask the external
path search; on the first failure the whole plan fails (`none`), otherwise
accumulate the pair's lanelets with consecutive-duplicate suppression. -/
def collect_route_lanelets (env : Env) (cfg : Params) :
    List (Pose × Pose) → List Nat → Option (List Nat)
  | [], acc => some acc
  | (s, g) :: rest, acc =>
    match env.planPath s g cfg.consider_no_drivable_lanes with
    | none => none
    | some path_lanelets =>
      collect_route_lanelets env cfg rest (append_route_lanelets acc path_lanelets)

/-- All route lanelets accumulated by `plan` over the checkpoint list. -/
def build_route_lanelets (env : Env) (cfg : Params) (points : List Pose) :
    Option (List Nat) :=
  collect_route_lanelets env cfg (checkpoint_pairs points) []

/-- Modelled from the spec: `route_handler_.createMapSegments` (route handler
source is outside this planner file) turns each route lanelet into a route
segment naming it as the preferred primitive. -/
def createMapSegments (lanelets : List Nat) : List LaneletSegment :=
  lanelets.map fun id => { primitives := [id], preferred_primitive := id }

/-- Modelled from the spec: `route_handler_.isRouteLooped` (route handler
source is outside this planner file) reports a segment id appearing
non-consecutively more than once in the section sequence. -/
def isRouteLooped (sections : List LaneletSegment) : Bool :=
  !decide (((sections.map fun s => s.preferred_primitive).destutter (· ≠ ·)).Nodup)

/-- Goal pose selection of `plan`: `points.back()`, optionally snapped onto
the closest centerline when `enable_correct_goal_pose` is set (`none` models
the out-of-bounds vector access on an empty checkpoint list). -/
def plan_goal_pose (env : Env) (cfg : Params) (points : List Pose) : Option Pose :=
  points.getLast?.map fun p =>
    if cfg.enable_correct_goal_pose then env.correctedGoal p else p

/-- `DefaultPlanner::refine_goal_height`: reads the preferred primitive of the
last route section and overwrites the goal elevation with the projection of
the goal point onto that lanelet's fine centerline.  The C++ code reads
`route_sections.back()` with no emptiness guard; `none` models that
out-of-bounds access on an empty section list. -/
def refine_goal_height (env : Env) (goal : Pose) (route_sections : List LaneletSegment) :
    Option Pose :=
  match route_sections.getLast? with
  | none => none
  | some last_section =>
    let goal_lane_id := last_section.preferred_primitive
    let goal_height := env.projectZ goal_lane_id (goal.x, goal.y, goal.z)
    some { goal with z := goal_height }

/-- Zero-initialised pose of a default-constructed route message. -/
def defaultPose : Pose := { x := 0, y := 0, z := 0, yawPi := 0 }

/-- The default-constructed `route_msg` that `plan` returns on every failure
path (empty segments, zero poses). -/
def defaultLaneletRoute : LaneletRoute :=
  { start_pose := defaultPose, goal_pose := defaultPose, segments := [] }

/-- `DefaultPlanner::plan`.  The result is `some` of the returned route
message; `none` models the undefined behaviour of an out-of-bounds vector
access (`points.back()`, `points.front()` on an empty checkpoint list, or
`route_sections.back()` inside `refine_goal_height` on an empty section
list).  Every failure the source detects returns the default-constructed
route message. -/
def plan (env : Env) (cfg : Params) (points : List Pose) : Option LaneletRoute :=
  match build_route_lanelets env cfg points with
  | none => some defaultLaneletRoute
  | some all_route_lanelets =>
    let route_sections := createMapSegments all_route_lanelets
    match plan_goal_pose env cfg points with
    | none => none
    | some goal_pose =>
      if !is_goal_valid env cfg goal_pose all_route_lanelets then some defaultLaneletRoute
      else if isRouteLooped route_sections then some defaultLaneletRoute
      else
        match refine_goal_height env goal_pose route_sections with
        | none => none
        | some refined_goal =>
          match points.head? with
          | none => none
          | some start_pose =>
            some { start_pose := start_pose, goal_pose := refined_goal,
                   segments := route_sections }

/-- Baseline concrete environment used to run the theorems on closed inputs:
an empty map (no following lanelets, no parking regions, no shoulder or road
lanelets at any pose, footprint never contained, path search always failing). -/
def baseEnv : Env :=
  { nextLanelets := fun _ => []
    laneletLength := fun _ => 0
    combine := fun _ => 0
    closestShoulder := fun _ => none
    closestRoadAtPose := fun _ => none
    nearestRoadFallback := fun _ => none
    laneletAngleAt := fun _ _ => 0
    laneDistance := fun _ _ => 1
    parkingSpaceDists := fun _ => []
    parkingLotDists := fun _ => []
    footprintWithin := fun _ _ => false
    planPath := fun _ _ _ => none
    correctedGoal := fun p => p
    projectZ := fun _ p => p.2.2
    fuel := 3 }

/-- Baseline concrete parameters: 10 degree angular tolerance, footprint
checking enabled, maximum longitudinal offset 5 m, search margin 2 m. -/
def baseParams : Params :=
  { goal_angle_threshold_deg := 10
    enable_correct_goal_pose := false
    consider_no_drivable_lanes := false
    check_footprint_inside_lanes := true
    max_longitudinal_offset_m := 5
    search_margin := 2 }

/-- Concrete goal pose at the origin with heading 0. -/
def goalPose0 : Pose := { x := 0, y := 0, z := 0, yawPi := 0 }

/-- Concrete environment for the C2 counterexample: lanelet 10 is followed by
lanelet 11 of length 6; combining any lanelets yields lanelet 20, the only
polygon containing the footprint. -/
def envGuard : Env :=
  { baseEnv with
    nextLanelets := fun _ => [11]
    laneletLength := fun _ => 6
    combine := fun _ => 20 }

/-- Concrete environment for the C1 witness: a road lanelet (id 1) is at the
goal pose, the goal point touches one parking lot polygon (distance 0), the
map has no shoulder lanelets, no parking spaces, no following lanelets, and
the footprint is contained nowhere. -/
def envLot : Env :=
  { baseEnv with
    closestRoadAtPose := fun _ => some 1
    parkingLotDists := fun _ => [0] }

/-- Concrete environment for the C7 witness: the goal point lies exactly on
lanelet 1 (distance 0), whose direction at the goal is 9.999 degrees in
half-turn units. -/
def envOnLane : Env :=
  { baseEnv with
    laneDistance := fun _ _ => 0
    laneletAngleAt := fun _ _ => 9999 / 1000 / 180 }

/-- Concrete environment for the C8 witness: the path search returns the
lanelet sequence 1, 2, 2, 3 for every checkpoint pair, so the shared id 2
must be suppressed once. -/
def envPairs : Env :=
  { baseEnv with planPath := fun _ _ _ => some [1, 2, 2, 3] }

/-- Concrete final route section used by the C9 and C10 witnesses. -/
def lastSection5 : LaneletSegment := { primitives := [5], preferred_primitive := 5 }

/-- Concrete environment for the C4 witness: the path search fails on every
checkpoint pair. -/
def envPathFail : Env := baseEnv

/-- Concrete environment for the C3 counterexample: the path search connects
every pair with lanelet 1, but no shoulder or road lanelet exists anywhere,
so goal validation fails. -/
def envGoalFail : Env :=
  { baseEnv with planPath := fun _ _ _ => some [1] }

/-- Concrete environment for the C3 amended-theorem witness. -/
def envC3 : Env := envPathFail

/-- Concrete environment for the C10 witness: a shoulder lanelet (id 3) with
direction matching the goal heading makes the goal validate even though the
route has no sections. -/
def envShoulder : Env :=
  { baseEnv with closestShoulder := fun _ => some 3 }

/-- C6: if the goal footprint is fully contained in the accumulated
(combined previous) polygon, the containment search succeeds immediately via
the base case, leaving the accumulated length untouched; extending the
search chain therefore never un-contains a footprint already contained at a
shorter chain. -/
theorem containment_base_case_immediate (env : Env) (cfg : Params)
    (fpWithin : Nat → Bool) (fuel current_lanelet combined_prev_lanelet : Nat)
    (next_lane_length : ℚ)
    (h : fpWithin combined_prev_lanelet = true) :
    check_goal_footprint_inside_lanes env cfg fpWithin (fuel + 1)
      current_lanelet combined_prev_lanelet next_lane_length =
    (true, next_lane_length) := by
  simp [check_goal_footprint_inside_lanes, h]

/-- Witness for C6: a concrete run in which the footprint is already
contained in the accumulated polygon returns success at once. -/
theorem containment_base_case_immediate_run :
    (fun _ : Nat => true) 0 = true ∧
    check_goal_footprint_inside_lanes baseEnv baseParams (fun _ => true) 1 7 0 (3/2) =
      (true, 3/2) :=
  ⟨rfl, containment_base_case_immediate baseEnv baseParams (fun _ => true) 0 7 0 (3/2) rfl⟩

/-- Helper for the frame property of the containment search: if the loop over
the following lanelets returns false, the accumulated length is restored to
its entry value, provided the recursive call at one smaller depth has the
same property. -/
theorem check_following_false_restores (env : Env) (cfg : Params) (fpWithin : Nat → Bool)
    (recur : Nat → Nat → ℚ → Bool × ℚ)
    (hrec : ∀ cur prev len r, recur cur prev len = (false, r) → r = len)
    (combined_prev_lanelet : Nat) :
    ∀ (rest : List Nat) (len r : ℚ),
      check_following_lanelets env cfg fpWithin recur combined_prev_lanelet rest len =
        (false, r) →
      r = len := by
  intro rest
  induction rest with
  | nil =>
    intro len r h
    simp only [check_following_lanelets, Prod.mk.injEq] at h
    exact h.2.symm
  | cons next_lane rest ih =>
    intro len r h
    simp only [check_following_lanelets] at h
    split at h
    · split at h
      · simp at h
      · have hr := ih _ _ h
        rw [hr]; ring
    · split at h
      · simp at h
      · rename_i lenr heq
        have h1 : lenr = len + env.laneletLength next_lane := hrec _ _ _ _ heq
        have hr := ih _ _ h
        rw [hr, h1]; ring

/-- C5: whenever the containment search returns false, the accumulated
length in/out parameter is left equal to its value at entry: every length
addition made along a failed branch is undone by the backtracking. -/
theorem containment_failure_restores_length (env : Env) (cfg : Params)
    (fpWithin : Nat → Bool) :
    ∀ (fuel current_lanelet combined_prev_lanelet : Nat) (len r : ℚ),
      check_goal_footprint_inside_lanes env cfg fpWithin fuel current_lanelet
        combined_prev_lanelet len = (false, r) →
      r = len := by
  intro fuel
  induction fuel with
  | zero =>
    intro cur prev len r h
    simp only [check_goal_footprint_inside_lanes, Prod.mk.injEq] at h
    exact h.2.symm
  | succ fuel ih =>
    intro cur prev len r h
    simp only [check_goal_footprint_inside_lanes] at h
    split at h
    · simp at h
    · exact check_following_false_restores env cfg fpWithin _ ih prev _ _ _ h

/-- Witness for C5: a concrete failing search returns with the accumulated
length equal to its entry value. -/
theorem containment_failure_restores_length_run :
    check_goal_footprint_inside_lanes baseEnv baseParams (fun _ => false) 2 0 0 (7/4) =
      (false, 7/4) ∧ (7/4 : ℚ) = 7/4 :=
  ⟨rfl,
   containment_failure_restores_length baseEnv baseParams (fun _ => false) 2 0 0 (7/4) (7/4)
     rfl⟩

/-- Helper for C2: the amended-spec loop body agrees with the source loop
body for every recursive continuation. -/
theorem check_following_amended_eq (env : Env) (cfg : Params) (fpWithin : Nat → Bool)
    (recur : Nat → Nat → ℚ → Bool × ℚ) (combined_prev_lanelet : Nat) :
    ∀ (rest : List Nat) (len : ℚ),
      check_following_amended env cfg fpWithin recur combined_prev_lanelet rest len =
      check_following_lanelets env cfg fpWithin recur combined_prev_lanelet rest len := by
  intro rest
  induction rest with
  | nil => intro len; rfl
  | cons next_lane rest ih =>
    intro len
    simp only [check_following_amended, check_following_lanelets]
    by_cases hg : cfg.max_longitudinal_offset_m + cfg.search_margin <
        len + env.laneletLength next_lane
    · rw [if_neg (not_le.mpr hg), if_pos hg]
      by_cases hw : fpWithin (env.combine [combined_prev_lanelet, next_lane]) = true
      · rw [if_pos hw, if_pos hw]
      · rw [if_neg hw, if_neg hw, ih]
    · rw [if_pos (not_lt.mp hg), if_neg hg]
      rcases hres : recur next_lane (env.combine [combined_prev_lanelet, next_lane])
        (len + env.laneletLength next_lane) with ⟨b, lenr⟩
      cases b
      · exact ih _
      · rfl

/-- C2 amended theorem: the containment search recurses one level deeper
exactly when the accumulated length is at most the vehicle's maximum
longitudinal offset plus the search margin; otherwise it restores the length
and tests containment of the footprint in the combined polygon, succeeding
if contained.  Stated as: the amended-spec transcription coincides with the
source transcription on every input. -/
theorem containment_guard_amended_agrees (env : Env) (cfg : Params) (fpWithin : Nat → Bool) :
    ∀ (fuel current_lanelet combined_prev_lanelet : Nat) (len : ℚ),
      check_goal_footprint_amended env cfg fpWithin fuel current_lanelet
        combined_prev_lanelet len =
      check_goal_footprint_inside_lanes env cfg fpWithin fuel current_lanelet
        combined_prev_lanelet len := by
  intro fuel
  induction fuel with
  | zero => intro cur prev len; rfl
  | succ fuel ih =>
    intro cur prev len
    simp only [check_goal_footprint_amended, check_goal_footprint_inside_lanes]
    by_cases hw : fpWithin prev = true
    · rw [if_pos hw, if_pos hw]
    · rw [if_neg hw, if_neg hw]
      have hfun : check_goal_footprint_amended env cfg fpWithin fuel =
          check_goal_footprint_inside_lanes env cfg fpWithin fuel := by
        funext a b c; exact ih a b c
      rw [hfun, check_following_amended_eq]

/-- C2 counterexample: with maximum longitudinal offset 5 and search margin
2, a following lanelet of length 6 makes the claim-literal guard (accumulated
length plus margin below the offset) test containment at once, while the
source recurses one level deeper; the two behaviours differ in the returned
accumulated length. -/
theorem containment_guard_claim_counterexample :
    check_goal_footprint_claim envGuard baseParams (fun n => decide (n = 20)) 2 10 5 0 ≠
    check_goal_footprint_inside_lanes envGuard baseParams (fun n => decide (n = 20))
      2 10 5 0 := by
  have h1 : check_goal_footprint_claim envGuard baseParams (fun n => decide (n = 20))
      2 10 5 0 = (true, 0 + (6 : ℚ) - 6) := by
    norm_num [check_goal_footprint_claim, check_following_claim, envGuard, baseEnv, baseParams]
  have h2 : check_goal_footprint_inside_lanes envGuard baseParams (fun n => decide (n = 20))
      2 10 5 0 = (true, 0 + (6 : ℚ)) := by
    norm_num [check_goal_footprint_inside_lanes, check_following_lanelets, envGuard, baseEnv,
      baseParams]
  rw [h1, h2]
  intro hcontra
  have := congrArg Prod.snd hcontra
  norm_num at this

/-- C1: when footprint checking is enabled and the containment search fails,
the goal is rejected only if its point is not inside any parking lot: with
the goal inside a parking lot the footprint gate does not reject, and a goal
lying only inside a parking lot (not on any lane, shoulder rule not firing,
a closest road lanelet located) is accepted by the validator via the
parking-lot rule even though the containment search failed. -/
theorem goal_in_parking_lot_overrides_footprint (env : Env) (cfg : Params) (goal : Pose)
    (path_lanelets : List Nat) (closest_lanelet : Nat)
    (_hen : cfg.check_footprint_inside_lanes = true)
    (_hfail : (check_goal_footprint_inside_lanes env cfg (env.footprintWithin goal) env.fuel
        closest_lanelet (env.combine path_lanelets) 0).1 = false)
    (hlot : is_in_parking_lot (env.parkingLotDists goal) = true)
    (hsh : shoulder_rule env cfg goal = false)
    (hcl : locate_closest_road env goal = some closest_lanelet)
    (hlane : is_in_lane env closest_lanelet goal = false) :
    footprint_rejects env cfg goal closest_lanelet path_lanelets = false ∧
    is_goal_valid env cfg goal path_lanelets = true := by
  have hfr : footprint_rejects env cfg goal closest_lanelet path_lanelets = false := by
    simp [footprint_rejects, hlot]
  refine ⟨hfr, ?_⟩
  rw [is_goal_valid, hsh, hcl]
  simp only [Bool.false_eq_true, if_false]
  rw [hfr]
  simp only [Bool.false_eq_true, if_false]
  rw [on_lane_rule, hlane]
  simp only [Bool.false_and, Bool.false_eq_true, if_false]
  cases hps : is_in_parking_space (env.parkingSpaceDists goal) <;> simp [hps, hlot]

/-- Witness for C1: the concrete goal inside only a parking lot validates
even though the containment search fails. -/
theorem goal_in_parking_lot_overrides_footprint_run :
    is_goal_valid envLot baseParams goalPose0 [] = true :=
  (goal_in_parking_lot_overrides_footprint envLot baseParams goalPose0 [] 1
    rfl rfl
    (by norm_num [is_in_parking_lot, th_distance, envLot, baseEnv])
    rfl rfl
    (by norm_num [is_in_lane, th_distance, envLot, baseEnv])).2

/-- C7: for a goal lying on the closest lane segment, the on-lane rule
accepts exactly when the absolute value of the normalized (wrapped into one
turn) signed difference between the lane direction and the goal heading is
strictly below the configured angular tolerance (here in half-turn units,
the threshold in degrees divided by 180); a difference at or beyond the
threshold is not accepted by this rule. -/
theorem on_lane_rule_angle_iff (env : Env) (cfg : Params) (goal : Pose)
    (closest_lanelet : Nat)
    (h : is_in_lane env closest_lanelet goal = true) :
    (on_lane_rule env cfg goal closest_lanelet = true ↔
      |normalizeHalfTurns (env.laneletAngleAt closest_lanelet goal - goal.yawPi)| <
        cfg.goal_angle_threshold_deg / 180) := by
  simp [on_lane_rule, h, angle_diff_ok, deg2halfTurns]

/-- Witness for C7: at a lane-goal angular difference of 9.999 degrees and a
10 degree tolerance the rule accepts, matching the characterisation. -/
theorem on_lane_rule_angle_iff_run :
    is_in_lane envOnLane 1 goalPose0 = true ∧
    (on_lane_rule envOnLane baseParams goalPose0 1 = true ↔
      |normalizeHalfTurns (envOnLane.laneletAngleAt 1 goalPose0 - goalPose0.yawPi)| <
        baseParams.goal_angle_threshold_deg / 180) ∧
    on_lane_rule envOnLane baseParams goalPose0 1 = true := by
  have hin : is_in_lane envOnLane 1 goalPose0 = true := by
    norm_num [is_in_lane, th_distance, envOnLane, baseEnv]
  refine ⟨hin, on_lane_rule_angle_iff envOnLane baseParams goalPose0 1 hin, ?_⟩
  rw [on_lane_rule, hin]
  norm_num [angle_diff_ok, envOnLane, baseEnv, baseParams, goalPose0, normalizeHalfTurns,
    deg2halfTurns]
  norm_num [abs_of_nonneg, Int.floor_eq_zero_iff]

/-- Helper for C8: one push of the accumulation loop preserves the absence
of consecutive duplicate ids. -/
theorem push_route_lanelet_chain (acc : List Nat) (lane : Nat)
    (h : acc.Chain' (· ≠ ·)) : (push_route_lanelet acc lane).Chain' (· ≠ ·) := by
  unfold push_route_lanelet
  cases hl : acc.getLast? with
  | none => exact List.chain'_singleton _
  | some last =>
    show List.Chain' (· ≠ ·) (if lane = last then acc else acc ++ [lane])
    by_cases he : lane = last
    · simpa [he] using h
    · rw [if_neg he, List.chain'_append]
      refine ⟨h, List.chain'_singleton _, ?_⟩
      intro x hx y hy
      rw [hl] at hx
      simp only [Option.mem_def, Option.some.injEq] at hx
      simp only [List.head?_cons, Option.mem_def, Option.some.injEq] at hy
      subst hx; subst hy
      exact fun hcontra => he hcontra.symm

/-- Helper for C8: accumulating a whole pair's path lanelets preserves the
absence of consecutive duplicate ids. -/
theorem append_route_lanelets_chain (lanes : List Nat) :
    ∀ acc : List Nat, acc.Chain' (· ≠ ·) →
      (append_route_lanelets acc lanes).Chain' (· ≠ ·) := by
  induction lanes with
  | nil => intro acc h; exact h
  | cons lane lanes ih =>
    intro acc h
    exact ih _ (push_route_lanelet_chain acc lane h)

/-- Helper for C8: the checkpoint loop preserves the absence of consecutive
duplicate ids in its accumulator. -/
theorem collect_route_lanelets_chain (env : Env) (cfg : Params) :
    ∀ (pairs : List (Pose × Pose)) (acc all : List Nat),
      acc.Chain' (· ≠ ·) →
      collect_route_lanelets env cfg pairs acc = some all →
      all.Chain' (· ≠ ·) := by
  intro pairs
  induction pairs with
  | nil =>
    intro acc all h hc
    simp only [collect_route_lanelets, Option.some.injEq] at hc
    exact hc ▸ h
  | cons p rest ih =>
    intro acc all h hc
    obtain ⟨s, g⟩ := p
    simp only [collect_route_lanelets] at hc
    split at hc
    · exact absurd hc (by simp)
    · exact ih _ _ (append_route_lanelets_chain _ _ h) hc

/-- C8: every lanelet sequence `plan` builds by concatenating the per-pair
path-search results contains no two consecutive entries with equal id: the
accumulation loop suppresses a lanelet whenever its id equals the id of the
last lanelet already accumulated. -/
theorem route_lanelets_no_consecutive_duplicates (env : Env) (cfg : Params)
    (points : List Pose) (all : List Nat)
    (h : build_route_lanelets env cfg points = some all) :
    all.Chain' (· ≠ ·) :=
  collect_route_lanelets_chain env cfg (checkpoint_pairs points) [] all List.chain'_nil h

/-- Witness for C8: the accumulated route over one checkpoint pair is
1, 2, 3 and carries no consecutive duplicates. -/
theorem route_lanelets_no_consecutive_duplicates_run :
    List.Chain' (· ≠ ·) [1, 2, 3] :=
  route_lanelets_no_consecutive_duplicates envPairs baseParams [goalPose0, goalPose0]
    [1, 2, 3] rfl

/-- C9: `refine_goal_height` is idempotent on already-corrected goals: a goal
whose elevation already equals the projection of its position onto the
centerline of the final preferred lane segment is returned unchanged, and
applying the refinement twice equals applying it once. -/
theorem refine_goal_height_idem (env : Env) (goal : Pose)
    (route_sections : List LaneletSegment) (last_section : LaneletSegment)
    (hs : route_sections.getLast? = some last_section)
    (hz : goal.z = env.projectZ last_section.preferred_primitive (goal.x, goal.y, goal.z)) :
    refine_goal_height env goal route_sections = some goal ∧
    (refine_goal_height env goal route_sections).bind
        (fun g => refine_goal_height env g route_sections) =
      refine_goal_height env goal route_sections := by
  have h1 : refine_goal_height env goal route_sections = some goal := by
    simp only [refine_goal_height, hs]
    cases goal with
    | mk x y z w =>
      simp only at hz
      simp [← hz]
  refine ⟨h1, ?_⟩
  rw [h1, Option.some_bind, h1]

/-- Witness for C9: with the surface projection returning the point's own
elevation, the origin goal is already corrected and refining is idempotent. -/
theorem refine_goal_height_idem_run :
    refine_goal_height baseEnv goalPose0 [lastSection5] = some goalPose0 ∧
    (refine_goal_height baseEnv goalPose0 [lastSection5]).bind
        (fun g => refine_goal_height baseEnv g [lastSection5]) =
      refine_goal_height baseEnv goalPose0 [lastSection5] :=
  refine_goal_height_idem baseEnv goalPose0 [lastSection5] lastSection5 rfl rfl

/-- Helper for C4: if the external path search fails for some checkpoint
pair, the checkpoint loop reports failure regardless of the accumulator. -/
theorem collect_route_lanelets_none (env : Env) (cfg : Params) :
    ∀ (pairs : List (Pose × Pose)) (acc : List Nat),
      (∃ sg ∈ pairs, env.planPath sg.1 sg.2 cfg.consider_no_drivable_lanes = none) →
      collect_route_lanelets env cfg pairs acc = none := by
  intro pairs
  induction pairs with
  | nil =>
    rintro acc ⟨sg, hmem, _⟩
    exact absurd hmem (List.not_mem_nil sg)
  | cons p rest ih =>
    rintro acc ⟨sg, hmem, hfail⟩
    obtain ⟨s, g⟩ := p
    rcases List.mem_cons.mp hmem with heq | hmem'
    · subst heq
      simp only at hfail
      simp only [collect_route_lanelets, hfail]
    · simp only [collect_route_lanelets]
      cases hp : env.planPath s g cfg.consider_no_drivable_lanes with
      | none => rfl
      | some lanes => exact ih _ ⟨sg, hmem', hfail⟩

/-- C4: `plan` never returns a partial route.  If the path search fails for
any consecutive checkpoint pair, or the goal fails validation, or a loop is
detected, `plan` returns the default-constructed route message, whose
segment list is empty. -/
theorem plan_no_partial_route (env : Env) (cfg : Params) (points : List Pose) :
    ((∃ sg ∈ checkpoint_pairs points,
        env.planPath sg.1 sg.2 cfg.consider_no_drivable_lanes = none) →
      plan env cfg points = some defaultLaneletRoute) ∧
    (∀ all gp, build_route_lanelets env cfg points = some all →
      plan_goal_pose env cfg points = some gp →
      is_goal_valid env cfg gp all = false →
      plan env cfg points = some defaultLaneletRoute) ∧
    (∀ all gp, build_route_lanelets env cfg points = some all →
      plan_goal_pose env cfg points = some gp →
      is_goal_valid env cfg gp all = true →
      isRouteLooped (createMapSegments all) = true →
      plan env cfg points = some defaultLaneletRoute) ∧
    defaultLaneletRoute.segments = [] := by
  refine ⟨?_, ?_, ?_, rfl⟩
  · intro hexists
    have hb : build_route_lanelets env cfg points = none :=
      collect_route_lanelets_none env cfg (checkpoint_pairs points) [] hexists
    rw [plan, hb]
  · intro all gp hb hgp hvalid
    simp [plan, hb, hgp, hvalid]
  · intro all gp hb hgp hvalid hloop
    simp [plan, hb, hgp, hvalid, hloop]

/-- Witness for C4: a concrete two-checkpoint request whose pair cannot be
connected yields the default route with an empty segment list. -/
theorem plan_no_partial_route_run :
    plan envPathFail baseParams [goalPose0, goalPose0] = some defaultLaneletRoute ∧
    defaultLaneletRoute.segments = [] :=
  ⟨(plan_no_partial_route envPathFail baseParams [goalPose0, goalPose0]).1
      ⟨(goalPose0, goalPose0), by simp [checkpoint_pairs], rfl⟩,
   (plan_no_partial_route envPathFail baseParams [goalPose0, goalPose0]).2.2.2⟩

/-- C3 counterexample: two planning runs that fail for different reasons (in
the first the path search cannot connect the checkpoint pair; in the second
the pair is connected but the goal fails validation) return identical route
messages, so a caller cannot tell from the returned value which of the
failure kinds occurred. -/
theorem plan_failures_indistinguishable :
    plan envPathFail baseParams [goalPose0, goalPose0] =
      plan envGoalFail baseParams [goalPose0, goalPose0] ∧
    build_route_lanelets envPathFail baseParams [goalPose0, goalPose0] = none ∧
    build_route_lanelets envGoalFail baseParams [goalPose0, goalPose0] = some [1] ∧
    is_goal_valid envGoalFail baseParams goalPose0 [1] = false := by
  refine ⟨?_, rfl, rfl, rfl⟩
  rfl

/-- C3 amended theorem: every returned route message is either the
default-constructed route (the single failure signal shared by no-path-found,
invalid-goal and loop-detected) or a complete validated route carrying the
first checkpoint as start pose, the height-refined validated goal, and the
section sequence of the accumulated lanelets. -/
theorem plan_default_or_complete (env : Env) (cfg : Params) (points : List Pose)
    (r : LaneletRoute) (h : plan env cfg points = some r) :
    r = defaultLaneletRoute ∨
    ∃ all gp refined start,
      build_route_lanelets env cfg points = some all ∧
      plan_goal_pose env cfg points = some gp ∧
      is_goal_valid env cfg gp all = true ∧
      isRouteLooped (createMapSegments all) = false ∧
      refine_goal_height env gp (createMapSegments all) = some refined ∧
      points.head? = some start ∧
      r = { start_pose := start, goal_pose := refined,
            segments := createMapSegments all } := by
  cases hb : build_route_lanelets env cfg points with
  | none =>
    left
    simp only [plan, hb, Option.some.injEq] at h
    exact h.symm
  | some all =>
    cases hgp : plan_goal_pose env cfg points with
    | none =>
      simp only [plan, hb, hgp] at h
      exact Option.noConfusion h
    | some gp =>
      cases hvalid : is_goal_valid env cfg gp all with
      | false =>
        left
        simp only [plan, hb, hgp, hvalid, Bool.not_false, if_true, Option.some.injEq] at h
        exact h.symm
      | true =>
        cases hloop : isRouteLooped (createMapSegments all) with
        | true =>
          left
          simp only [plan, hb, hgp, hvalid, hloop, Bool.not_true, Bool.false_eq_true,
            if_false, if_true, Option.some.injEq] at h
          exact h.symm
        | false =>
          cases hrefine : refine_goal_height env gp (createMapSegments all) with
          | none =>
            simp only [plan, hb, hgp, hvalid, hloop, hrefine, Bool.not_true,
              Bool.false_eq_true, if_false] at h
            exact Option.noConfusion h
          | some refined =>
            cases hstart : points.head? with
            | none =>
              simp only [plan, hb, hgp, hvalid, hloop, hrefine, hstart, Bool.not_true,
                Bool.false_eq_true, if_false] at h
              exact Option.noConfusion h
            | some start =>
              right
              simp only [plan, hb, hgp, hvalid, hloop, hrefine, hstart, Bool.not_true,
                Bool.false_eq_true, if_false, Option.some.injEq] at h
              exact ⟨all, gp, refined, start, rfl, rfl, hvalid, hloop, hrefine, rfl, h.symm⟩

/-- Witness for the C3 amended theorem: instantiating it on a concrete
failing run discharges its hypothesis and yields the disjunction. -/
theorem plan_default_or_complete_run :
    defaultLaneletRoute = defaultLaneletRoute ∨
    ∃ all gp refined start,
      build_route_lanelets envC3 baseParams [goalPose0, goalPose0] = some all ∧
      plan_goal_pose envC3 baseParams [goalPose0, goalPose0] = some gp ∧
      is_goal_valid envC3 baseParams gp all = true ∧
      isRouteLooped (createMapSegments all) = false ∧
      refine_goal_height envC3 gp (createMapSegments all) = some refined ∧
      ([goalPose0, goalPose0] : List Pose).head? = some start ∧
      defaultLaneletRoute = { start_pose := start, goal_pose := refined,
                              segments := createMapSegments all } :=
  plan_default_or_complete envC3 baseParams [goalPose0, goalPose0] defaultLaneletRoute rfl

/-- C10: `refine_goal_height` is total only when the section list is
non-empty (its result models the unguarded `route_sections.back()` access,
out of bounds exactly on the empty list), and a `plan` call with a single
checkpoint whose goal nevertheless validates reaches that out-of-bounds
access, because the checkpoint loop runs zero times and leaves the section
list empty. -/
theorem refine_goal_height_requires_sections (env : Env) (cfg : Params) (p goal : Pose)
    (route_sections : List LaneletSegment) :
    (refine_goal_height env goal route_sections = none ↔ route_sections = []) ∧
    (∀ gp, plan_goal_pose env cfg [p] = some gp →
      is_goal_valid env cfg gp [] = true →
      plan env cfg [p] = none) := by
  constructor
  · constructor
    · intro h
      cases hs : route_sections.getLast? with
      | none => exact List.getLast?_eq_none_iff.mp hs
      | some sec =>
        rw [refine_goal_height, hs] at h
        exact absurd h (by simp)
    · intro h
      subst h
      rfl
  · intro gp hgp hvalid
    have hb : build_route_lanelets env cfg [p] = some [] := rfl
    simp [plan, hb, hgp, hvalid, isRouteLooped, createMapSegments, refine_goal_height]

/-- Witness for C10: on a concrete single-checkpoint request with a
validating goal, `plan` reaches the out-of-bounds section access, and the
totality characterisation holds on a concrete non-empty section list. -/
theorem refine_goal_height_requires_sections_run :
    plan envShoulder baseParams [goalPose0] = none ∧
    (refine_goal_height envShoulder goalPose0 [lastSection5] = none ↔
      ([lastSection5] : List LaneletSegment) = []) := by
  have hvalid : is_goal_valid envShoulder baseParams goalPose0 [] = true := by
    rw [is_goal_valid]
    have hsh : shoulder_rule envShoulder baseParams goalPose0 = true := by
      rw [shoulder_rule]
      show angle_diff_ok 0 0 10 = true
      norm_num [angle_diff_ok, normalizeHalfTurns, deg2halfTurns]
    rw [hsh]
    simp
  exact ⟨(refine_goal_height_requires_sections envShoulder baseParams goalPose0 goalPose0
            []).2 goalPose0 rfl hvalid,
         (refine_goal_height_requires_sections envShoulder baseParams goalPose0 goalPose0
            [lastSection5]).1⟩

end DefaultPlannerModel
